import Mathlib

/-!
Verification of the streaming chat application ("pydantic-ai-fastapi-nono").

A shallow embedding of the two source files:

* `src/chat_app/chat_app.py` — the `read_file` agent tool, the
  `to_chat_message` converter, the `/chat/` GET and POST handlers
  (`get_chat`, `stream_messages`), and the SQLite-backed `Database`
  (`add_messages` / `get_messages`).
* `src/chat_app/cli.py` — the `serve` entry point and `_apply_sandbox`,
  which builds a nono capability set and applies it before uvicorn starts.

The operating-system filesystem, the nono enforcement layer (an external
library, `nono_py`) and the pydantic-ai agent loop are external to the
repository; they are modelled as explicit parameters or, where the spec
pins down their behaviour, as definitions marked "Modelled from the spec".
Python exceptions of a call are modelled as an explicit outcome type and
the process-wide mutable state (`_tool_events`, the logger, the sqlite
rows) is threaded through as explicit state.
-/

/-! ## String helpers

Python strings are sequences of Unicode code points; `len` and slicing
count code points.  `pyLen` and `pySlice` model `len(s)` and `s[:n]`.
`charUtf8Size`/`utf8Len` give the UTF-8 byte length of a string, used to
compare the code's code-point truncation against the spec's byte bound. -/

def pyLen (s : String) : Nat := s.data.length

def pySlice (s : String) (n : Nat) : String := ⟨s.data.take n⟩

def charUtf8Size (c : Char) : Nat :=
  if c.val < 128 then 1
  else if c.val < 2048 then 2
  else if c.val < 65536 then 3
  else 4

def charsUtf8 : List Char → Nat
  | [] => 0
  | c :: l => charUtf8Size c + charsUtf8 l

def utf8Len (s : String) : Nat := charsUtf8 s.data

/-- `sub` occurs contiguously inside `s` (substring containment). -/
def strContains (s sub : String) : Prop :=
  ∃ l r, s.data = l ++ sub.data ++ r

/-- Concatenation of the lists produced by `f` over `l`, in order
(used to model a Python loop that `extend`s an accumulator). -/
def listFlat (f : α → List β) : List α → List β
  | [] => []
  | a :: l => f a ++ listFlat f l

/-! ## The message model

`ChatMessage` is the TypedDict `{role, timestamp, content}` used both for
the frontend messages and for the tool-event dicts pushed on the
process-wide `_tool_events` buffer (those always carry `role = "tool"`).

`ModelMessage` embeds pydantic-ai's message type as far as
`to_chat_message` inspects it: a `ModelRequest` carries a list of request
parts (`UserPromptPart` with a content that is either a string or some
non-string sequence, `SystemPromptPart`, `ToolReturnPart`,
`RetryPromptPart`), and a `ModelResponse` carries response parts
(`TextPart`, `ToolCallPart`) plus a message-level timestamp. -/

structure ChatMessage where
  role : String
  timestamp : String
  content : String
deriving DecidableEq

inductive UserContent where
  | str (s : String)
  | nonStr
deriving DecidableEq

inductive RequestPart where
  | userPrompt (content : UserContent) (timestamp : String)
  | systemPrompt (content : String)
  | toolReturn (content : String)
  | retryPrompt (content : String)
deriving DecidableEq

inductive ResponsePart where
  | text (content : String)
  | toolCall (toolName : String)
deriving DecidableEq

inductive ModelMessage where
  | request (parts : List RequestPart)
  | response (parts : List ResponsePart) (timestamp : String)
deriving DecidableEq

/-- Python exceptions that `to_chat_message` can raise: the explicit
`UnexpectedModelBehavior(f"Unexpected message type for chat app: {m}")`
(carrying the offending message), and the `IndexError` produced by
`m.parts[0]` on an empty part list. -/
inductive PyErr where
  | unexpectedModelBehavior (m : ModelMessage)
  | indexError
deriving DecidableEq

/-- Embeds `to_chat_message` (chat_app.py lines 142-161).  The source
first evaluates `first_part = m.parts[0]` (an `IndexError` when the list
is empty), then dispatches on the message class and the class of the
first part, raising `UnexpectedModelBehavior` on any shape that is not a
request headed by a string-content user prompt or a response headed by a
text part. -/
def to_chat_message : ModelMessage → Except PyErr ChatMessage
  | ModelMessage.request [] => Except.error PyErr.indexError
  | ModelMessage.request (RequestPart.userPrompt (UserContent.str c) ts :: _) =>
      Except.ok ⟨"user", ts, c⟩
  | ModelMessage.request ps =>
      Except.error (PyErr.unexpectedModelBehavior (ModelMessage.request ps))
  | ModelMessage.response [] _ => Except.error PyErr.indexError
  | ModelMessage.response (ResponsePart.text c :: _) ts => Except.ok ⟨"model", ts, c⟩
  | ModelMessage.response ps ts =>
      Except.error (PyErr.unexpectedModelBehavior (ModelMessage.response ps ts))

/-- Embeds the body of the GET `/chat/` handler (chat_app.py lines
164-171): it maps `to_chat_message` over the replayed history; the first
raising conversion aborts the whole response. The byte-joining of the
JSON lines is infallible and is abstracted away: the handler fails
exactly when some conversion fails. -/
def get_chat : List ModelMessage → Except PyErr (List ChatMessage)
  | [] => Except.ok []
  | m :: rest =>
    match to_chat_message m with
    | Except.error e => Except.error e
    | Except.ok c =>
      match get_chat rest with
      | Except.error e => Except.error e
      | Except.ok cs => Except.ok (c :: cs)

/-! ## The sandboxed file tool

`read_file` (chat_app.py lines 56-91).  The OS-level read
`Path(path).expanduser().resolve()` / `read_text(errors="replace")` is
modelled by a canonicalization function `resolve` and an outcome map
`fs : String → FsResult` giving, for the canonical path, either the
decoded file content or the exception class the read raises.  The
process-wide `_tool_events` buffer and the `chat_app.sandbox` logger are
threaded as explicit lists; the function returns
`(result string, new events, new logs)`. -/

inductive FsResult where
  | ok (content : String)
  | permissionError
  | fileNotFound
  | isADirectory
  | osError (cause : String)
deriving DecidableEq

/-- The try/except dispatch of `read_file` on the outcome of the read.
Each branch reproduces the source's returned string, appended tool-event
and log record; the `IsADirectoryError` and generic `OSError` branches
return a message only (the source has no `log` call and no
`_tool_events.append` there). -/
def readFileCore (outcome : FsResult) (nowTs path : String)
    (events : List ChatMessage) (logs : List String) :
    String × List ChatMessage × List String :=
  match outcome with
  | FsResult.ok raw =>
      (pySlice raw 4096,
       events ++ [⟨"tool", nowTs,
         "read_file(" ++ path ++ ") -- ALLOWED ("
           ++ toString (pyLen (pySlice raw 4096)) ++ " bytes read)"⟩],
       logs ++ ["ALLOWED  read_file(" ++ path ++ ") -> "
           ++ toString (pyLen (pySlice raw 4096)) ++ " bytes"])
  | FsResult.permissionError =>
      ("BLOCKED by nono sandbox: permission denied reading " ++ path,
       events ++ [⟨"tool", nowTs,
         "read_file(" ++ path ++ ") -- BLOCKED by nono sandbox (permission denied)"⟩],
       logs ++ ["BLOCKED  read_file(" ++ path ++ ") -> PermissionError (sandbox deny)"])
  | FsResult.fileNotFound =>
      ("File not found: " ++ path,
       events ++ [⟨"tool", nowTs, "read_file(" ++ path ++ ") -- file not found"⟩],
       logs ++ ["NOTFOUND read_file(" ++ path ++ ") -> FileNotFoundError"])
  | FsResult.isADirectory =>
      ("Path is a directory, not a file: " ++ path, events, logs)
  | FsResult.osError cause =>
      ("OS error reading " ++ path ++ ": " ++ cause, events, logs)

def read_file (resolve : String → String) (fs : String → FsResult)
    (nowTs path : String) (events : List ChatMessage) (logs : List String) :
    String × List ChatMessage × List String :=
  readFileCore (fs (resolve path)) nowTs path events logs

/-! ## Capability set and sandbox (cli.py plus the external nono layer) -/

inductive AccessMode where
  | read
  | readWrite
deriving DecidableEq

structure CapEntry where
  path : String
  mode : AccessMode
deriving DecidableEq

structure CapabilitySet where
  entries : List CapEntry
deriving DecidableEq

/-- `caps.allow_path(p, m)` registers one entry. -/
def allow_path (caps : CapabilitySet) (p : String) (m : AccessMode) : CapabilitySet :=
  ⟨caps.entries ++ [⟨p, m⟩]⟩

inductive SandboxState where
  | unapplied
  | applied (caps : CapabilitySet)
deriving DecidableEq

inductive NonoError where
  | alreadyApplied
deriving DecidableEq

/-- Modelled from the spec: `nono_py.apply` (the nono enforcement layer is
external to the repository).  Per spec section 4.1, "apply() commits the
set to the enforcement layer exactly once per process; a second call
fails with an AlreadyApplied error". -/
def nono_apply (caps : CapabilitySet) : SandboxState → Except NonoError SandboxState
  | SandboxState.unapplied => Except.ok (SandboxState.applied caps)
  | SandboxState.applied _ => Except.error NonoError.alreadyApplied

/-- Character-list matching used by the capability check: `pat` matches
the leading characters of `s`. -/
def leadsChars : List Char → List Char → Bool
  | [], _ => true
  | _ :: _, [] => false
  | a :: as, b :: bs => a == b && leadsChars as bs

/-- Modelled from the spec: the capability `check` (spec section 4.1) —
"path matching must be prefix-based against canonical paths so that
declaring a directory allows all of its descendants"; any registered
entry permits a read ("an access of mode or weaker"). -/
def capCheck (caps : CapabilitySet) (p : String) : Bool :=
  caps.entries.any (fun e => leadsChars e.path.data p.data)

/-- Modelled from the spec: kernel-level enforcement (spec sections 1 and
4.1) — with the sandbox applied, every syscall outside the capability set
is denied with a permission error; with no sandbox applied, the raw
filesystem is reached unrestricted. -/
def osRead (sandbox : Option CapabilitySet) (rawFs : String → FsResult)
    (p : String) : FsResult :=
  match sandbox with
  | none => rawFs p
  | some caps => if capCheck caps p then rawFs p else FsResult.permissionError

/-- The filesystem environment `_apply_sandbox` reads when building its
capability set (cli.py lines 37-110). -/
structure SandboxEnv where
  appDir : String
  pythonStdlib : String
  sitePackages : List String
  exeRoot : String
  cwd : String

/-- Embeds `_apply_sandbox`'s capability-set construction (cli.py lines
37-110): APP_DIR and /tmp read-write; the Python stdlib, every
site-packages directory, the interpreter root and the current working
directory read-only; /etc read-only and /var/run read-write. -/
def apply_sandbox_caps (env : SandboxEnv) : CapabilitySet :=
  let c0 := allow_path ⟨[]⟩ env.appDir AccessMode.readWrite
  let c1 := allow_path c0 "/tmp" AccessMode.readWrite
  let c2 := allow_path c1 env.pythonStdlib AccessMode.read
  let c3 := env.sitePackages.foldl (fun c sp => allow_path c sp AccessMode.read) c2
  let c4 := allow_path c3 env.exeRoot AccessMode.read
  let c5 := allow_path c4 env.cwd AccessMode.read
  let c6 := allow_path c5 "/etc" AccessMode.read
  allow_path c6 "/var/run" AccessMode.readWrite

inductive ProcAction where
  | sandboxApply (caps : CapabilitySet)
  | startServer
deriving DecidableEq

/-- Embeds the `serve` command (cli.py lines 142-161) as the sequence of
process-level actions it performs: unless `--no-sandbox` was given it
calls `_apply_sandbox()` (exactly once), then starts uvicorn. -/
def serve (noSandbox : Bool) (env : SandboxEnv) : List ProcAction :=
  (if noSandbox then [] else [ProcAction.sandboxApply (apply_sandbox_caps env)])
    ++ [ProcAction.startServer]

/-- The mutable process state reachable once the server is running: the
sandbox control state, the `_tool_events` buffer, the log, and the sqlite
rows. -/
structure ProcState where
  sandbox : SandboxState
  events : List ChatMessage
  logs : List String
  db : List String

def sandboxCaps : SandboxState → Option CapabilitySet
  | SandboxState.unapplied => none
  | SandboxState.applied caps => some caps

/-! ## Conversation store (the `Database` dataclass)

Rows are kept in insertion order; sqlite's AUTOINCREMENT makes insertion
order and id-ascending order coincide, so `SELECT ... ORDER BY id`
replays rows in the order `add_messages` appended them.  Deserialization
(`ModelMessagesTypeAdapter.validate_json`) is the external pydantic
codec, passed in as a parameter. -/

def emptyDb : List String := []

/-- `add_messages` (chat_app.py lines 259-266): `INSERT` of one serialized
turn blob as a new row. -/
def add_messages (db : List String) (blob : String) : List String := db ++ [blob]

/-- `get_messages` (chat_app.py lines 268-277): replay all rows in id
order, deserializing each blob and concatenating the results. -/
def get_messages (deserialize : String → List ModelMessage) (db : List String) :
    List ModelMessage :=
  listFlat deserialize db

/-! ## The streaming orchestrator (`stream_messages` inside `post_chat`)

The agent loop (`agent.run_stream` / `result.stream_text`) is external;
an `AgentRun` records what it did during one turn: for each debounced
cumulative-text fragment, the tool events the tool pushed on the buffer
since the previous fragment; then either `some (trailingEvents, blob)` —
the loop completed, leaving the listed events to flush and
`result.new_messages_json()` equal to `blob` — or `none`: the loop raised
(for example an `UnexpectedModelBehavior`) after those fragments.

A `Step` is one observable action of the generator body: emitting one
newline-delimited record, the single `database.add_messages` call, or the
exception escaping to the consumer. -/

structure Fragment where
  newEvents : List ChatMessage
  text : String
deriving DecidableEq

structure AgentRun where
  fragments : List Fragment
  after : Option (List ChatMessage × String)
deriving DecidableEq

inductive Step where
  | emit (m : ChatMessage)
  | persist (blob : String)
  | raiseErr
deriving DecidableEq

/-- The `async for text in result.stream_text(...)` loop body
(chat_app.py lines 198-205): flush the buffered tool events, then convert
`ModelResponse(parts=[TextPart(content=text)], ...)` with
`to_chat_message` and emit it; a raising conversion (impossible on this
shape, but kept faithful to the source's control flow) would abort the
loop.  The second component is `true` when the loop ran to completion. -/
def fragmentLoop (resultTs : String) : List Fragment → List Step × Bool
  | [] => ([], true)
  | f :: rest =>
    match to_chat_message (ModelMessage.response [ResponsePart.text f.text] resultTs) with
    | Except.ok m =>
        (f.newEvents.map Step.emit ++ (Step.emit m :: (fragmentLoop resultTs rest).1),
         (fragmentLoop resultTs rest).2)
    | Except.error _ => (f.newEvents.map Step.emit ++ [Step.raiseErr], false)

/-- Embeds the generator body of `post_chat` (chat_app.py lines 181-212):
emit the user record immediately; run the agent loop, interleaving
flushed tool events with cumulative model records; after a completed
loop, flush the remaining tool events and only then call
`database.add_messages(result.new_messages_json())` once; a loop that
raised propagates the exception instead (nothing further runs). -/
def stream_messages (prompt nowTs resultTs : String) (run : AgentRun) : List Step :=
  Step.emit ⟨"user", nowTs, prompt⟩ ::
    ((fragmentLoop resultTs run.fragments).1 ++
      (if (fragmentLoop resultTs run.fragments).2 then
        match run.after with
        | some (trail, blob) => trail.map Step.emit ++ [Step.persist blob]
        | none => [Step.raiseErr]
      else []))

/-- The runtime operations reachable while the server handles traffic, as
far as they touch the mutable process state: a tool invocation by the
agent, the end-of-turn persist, and the start-of-turn buffer clear. -/
inductive RuntimeOp where
  | toolRead (nowTs path : String)
  | persistTurn (blob : String)
  | clearEvents

/-- One runtime operation acting on the process state.  A tool read goes
through the kernel (`osRead`) under whatever sandbox state the process
has. -/
def applyRuntimeOp (resolve : String → String) (rawFs : String → FsResult) :
    RuntimeOp → ProcState → ProcState
  | RuntimeOp.toolRead nowTs path, st =>
      { st with
        events := (read_file resolve (osRead (sandboxCaps st.sandbox) rawFs)
            nowTs path st.events st.logs).2.1,
        logs := (read_file resolve (osRead (sandboxCaps st.sandbox) rawFs)
            nowTs path st.events st.logs).2.2 }
  | RuntimeOp.persistTurn blob, st => { st with db := add_messages st.db blob }
  | RuntimeOp.clearEvents, st => { st with events := [] }

def runOps (resolve : String → String) (rawFs : String → FsResult)
    (ops : List RuntimeOp) (st : ProcState) : ProcState :=
  ops.foldl (fun s op => applyRuntimeOp resolve rawFs op s) st

/-! ## Derived predicates and step observations -/

def exceptIsOk : Except PyErr α → Bool
  | Except.ok _ => true
  | Except.error _ => false

def isPersistStep : Step → Bool
  | Step.persist _ => true
  | _ => false

def persistCount (steps : List Step) : Nat := (steps.filter isPersistStep).length

/-- The per-fragment observable steps: the flushed tool events in their
buffer order, then the cumulative model record. -/
def fragSteps (resultTs : String) (f : Fragment) : List Step :=
  f.newEvents.map Step.emit ++ [Step.emit ⟨"model", resultTs, f.text⟩]

/-- The message has a first part (`m.parts[0]` does not raise). -/
def hasFirstPart : ModelMessage → Bool
  | ModelMessage.request [] => false
  | ModelMessage.response [] _ => false
  | _ => true

/-- The two shapes `to_chat_message` can render: a request whose first
part is a user prompt with string content, or a response whose first part
is a text part. -/
def renderable : ModelMessage → Bool
  | ModelMessage.request (RequestPart.userPrompt (UserContent.str _) _ :: _) => true
  | ModelMessage.response (ResponsePart.text _ :: _) _ => true
  | _ => false

def isUnexpectedErr : Except PyErr ChatMessage → Bool
  | Except.error (PyErr.unexpectedModelBehavior _) => true
  | _ => false

/-- The first part of the message is a tool-call or tool-return part. -/
def headIsToolPart : ModelMessage → Bool
  | ModelMessage.request (RequestPart.toolReturn _ :: _) => true
  | ModelMessage.response (ResponsePart.toolCall _ :: _) _ => true
  | _ => false

/-- A file content of 4096 two-byte (U+0100) characters. -/
def wideStr : String := ⟨List.replicate 4096 'Ā'⟩

/-! ## Helper lemmas -/

theorem string_data_append (a b : String) : (a ++ b).data = a.data ++ b.data := rfl

theorem head?_append_some {α : Type} {l₁ : List α} (l₂ : List α) {x : α}
    (h : l₁.head? = some x) : (l₁ ++ l₂).head? = some x := by
  cases l₁ with
  | nil => simp at h
  | cons a t => exact h

theorem str_ne_of_head_ne {s t : String} {x y : Char}
    (hs : s.data.head? = some x) (ht : t.data.head? = some y) (hxy : x ≠ y) :
    s ≠ t := by
  intro he
  rw [he] at hs
  rw [hs] at ht
  exact hxy (Option.some.inj ht)

theorem persistCount_append (a b : List Step) :
    persistCount (a ++ b) = persistCount a + persistCount b := by
  simp [persistCount, List.filter_append]

theorem persistCount_map_emit (l : List ChatMessage) :
    persistCount (l.map Step.emit) = 0 := by
  induction l with
  | nil => rfl
  | cons a t ih => simp [persistCount, List.filter_cons, isPersistStep] at ih ⊢

theorem fragmentLoop_cons (resultTs : String) (f : Fragment) (rest : List Fragment) :
    fragmentLoop resultTs (f :: rest)
      = (f.newEvents.map Step.emit ++
          (Step.emit ⟨"model", resultTs, f.text⟩ :: (fragmentLoop resultTs rest).1),
         (fragmentLoop resultTs rest).2) := rfl

theorem fragmentLoop_eq (resultTs : String) (frs : List Fragment) :
    fragmentLoop resultTs frs = (listFlat (fragSteps resultTs) frs, true) := by
  induction frs with
  | nil => rfl
  | cons f rest ih =>
      rw [fragmentLoop_cons, ih]
      simp [fragSteps, listFlat, List.append_assoc]

theorem stream_completed_eq (prompt nowTs resultTs : String) (frs : List Fragment)
    (trail : List ChatMessage) (blob : String) :
    stream_messages prompt nowTs resultTs ⟨frs, some (trail, blob)⟩
      = (Step.emit ⟨"user", nowTs, prompt⟩ ::
          (listFlat (fragSteps resultTs) frs ++ trail.map Step.emit))
        ++ [Step.persist blob] := by
  simp [stream_messages, fragmentLoop_eq, List.append_assoc]

theorem stream_failed_eq (prompt nowTs resultTs : String) (frs : List Fragment) :
    stream_messages prompt nowTs resultTs ⟨frs, none⟩
      = (Step.emit ⟨"user", nowTs, prompt⟩ :: listFlat (fragSteps resultTs) frs)
        ++ [Step.raiseErr] := by
  simp [stream_messages, fragmentLoop_eq]

theorem persistCount_fragSteps (resultTs : String) (frs : List Fragment) :
    persistCount (listFlat (fragSteps resultTs) frs) = 0 := by
  induction frs with
  | nil => rfl
  | cons f rest ih =>
      have h1 : persistCount (fragSteps resultTs f) = 0 := by
        show persistCount
            (f.newEvents.map Step.emit ++ [Step.emit ⟨"model", resultTs, f.text⟩]) = 0
        rw [persistCount_append, persistCount_map_emit]
        rfl
      have h2 : listFlat (fragSteps resultTs) (f :: rest)
          = fragSteps resultTs f ++ listFlat (fragSteps resultTs) rest := rfl
      rw [h2, persistCount_append, h1, ih]

theorem take_append_singleton {α : Type} (ys : List α) (z : α) (k : Nat)
    (hk : k ≤ ys.length) : (ys ++ [z]).take k = ys.take k := by
  rw [List.take_append_eq_append_take]
  have h0 : k - ys.length = 0 := Nat.sub_eq_zero_of_le hk
  simp [h0]

theorem persistCount_take_le (l : List Step) (k : Nat) :
    persistCount (l.take k) ≤ persistCount l := by
  have h : (l.take k).Sublist l := List.take_sublist k l
  simpa [persistCount] using (h.filter isPersistStep).length_le

theorem listFlat_append (f : α → List β) (l₁ l₂ : List α) :
    listFlat f (l₁ ++ l₂) = listFlat f l₁ ++ listFlat f l₂ := by
  induction l₁ with
  | nil => rfl
  | cons a t ih => simp [listFlat, ih, List.append_assoc]

theorem listDrop_eq_get_cons : ∀ (l : List α) (i : Nat) (h : i < l.length),
    l.drop i = l.get ⟨i, h⟩ :: l.drop (i + 1)
  | _ :: _, 0, _ => rfl
  | _ :: l, i + 1, h => listDrop_eq_get_cons l i (Nat.lt_of_succ_lt_succ h)

theorem listFlat_split (f : α → List β) (l : List α) (i : Nat) (h : i < l.length) :
    listFlat f l
      = listFlat f (l.take i) ++ (f (l.get ⟨i, h⟩) ++ listFlat f (l.drop (i + 1))) := by
  conv_lhs => rw [← List.take_append_drop i l]
  rw [listFlat_append, listDrop_eq_get_cons l i h]
  simp [listFlat, List.append_assoc]

theorem foldl_add_messages (blobs : List String) :
    ∀ db, blobs.foldl add_messages db = db ++ blobs := by
  induction blobs with
  | nil => intro db; simp
  | cons b bs ih => intro db; simp [List.foldl, add_messages, ih, List.append_assoc]

theorem charsUtf8_replicate (n : Nat) (c : Char) :
    charsUtf8 (List.replicate n c) = n * charUtf8Size c := by
  induction n with
  | zero => simp [charsUtf8]
  | succ n ih =>
      rw [List.replicate_succ]
      show charUtf8Size c + charsUtf8 (List.replicate n c) = (n + 1) * charUtf8Size c
      rw [ih, Nat.succ_mul]
      omega

theorem take_replicate_self (n : Nat) (c : Char) :
    (List.replicate n c).take n = List.replicate n c := by
  induction n with
  | zero => rfl
  | succ n ih => rw [List.replicate_succ, List.take_succ_cons, ih]

theorem runOps_sandbox (resolve : String → String) (rawFs : String → FsResult) :
    ∀ (ops : List RuntimeOp) (st : ProcState),
      (runOps resolve rawFs ops st).sandbox = st.sandbox := by
  intro ops
  induction ops with
  | nil => intro st; rfl
  | cons op rest ih =>
      intro st
      have h1 : (applyRuntimeOp resolve rawFs op st).sandbox = st.sandbox := by
        cases op <;> rfl
      have h2 : runOps resolve rawFs (op :: rest) st
          = runOps resolve rawFs rest (applyRuntimeOp resolve rawFs op st) := rfl
      rw [h2, ih, h1]

theorem toolPart_not_ok (m : ModelMessage) (h : headIsToolPart m = true) :
    exceptIsOk (to_chat_message m) = false := by
  cases m with
  | request parts =>
      cases parts with
      | nil => simp [headIsToolPart] at h
      | cons p rest =>
          cases p with
          | userPrompt c ts => simp [headIsToolPart] at h
          | systemPrompt c => simp [headIsToolPart] at h
          | toolReturn c => rfl
          | retryPrompt c => simp [headIsToolPart] at h
  | response parts ts =>
      cases parts with
      | nil => simp [headIsToolPart] at h
      | cons p rest =>
          cases p with
          | text c => simp [headIsToolPart] at h
          | toolCall n => rfl

theorem get_chat_error_of_mem (msgs : List ModelMessage) (m : ModelMessage)
    (hm : m ∈ msgs) (hbad : exceptIsOk (to_chat_message m) = false) :
    exceptIsOk (get_chat msgs) = false := by
  induction msgs with
  | nil => cases hm
  | cons a rest ih =>
      rcases List.mem_cons.mp hm with h | h
      · subst h
        cases hcm : to_chat_message m with
        | error e => simp [get_chat, hcm, exceptIsOk]
        | ok c => rw [hcm] at hbad; simp [exceptIsOk] at hbad
      · have hr := ih h
        cases hcm : to_chat_message a with
        | error e => simp [get_chat, hcm, exceptIsOk]
        | ok c =>
            cases hrest : get_chat rest with
            | error e => simp [get_chat, hcm, hrest, exceptIsOk]
            | ok cs => rw [hrest] at hr; simp [exceptIsOk] at hr

/-- For fixed path, buffer and log, the five branches of `read_file` are
told apart by their effect on the log and the tool-event buffer: only the
permission branch produces the blocked triple. -/
theorem readFileCore_blocked_inj (o : FsResult) (nowTs path : String)
    (events : List ChatMessage) (logs : List String)
    (h : readFileCore o nowTs path events logs
        = readFileCore FsResult.permissionError nowTs path events logs) :
    o = FsResult.permissionError := by
  cases o with
  | ok raw =>
      exfalso
      have hlog := congrArg (fun t => t.2.2) h
      simp only [readFileCore] at hlog
      have hx := List.append_cancel_left hlog
      have hy : ("ALLOWED  read_file(" ++ path ++ ") -> "
            ++ toString (pyLen (pySlice raw 4096)) ++ " bytes" : String)
          = "BLOCKED  read_file(" ++ path ++ ") -> PermissionError (sandbox deny)" :=
        List.cons.inj hx |>.1
      refine str_ne_of_head_ne (x := 'A') (y := 'B') ?_ ?_ (by decide) hy
      · rw [string_data_append, string_data_append, string_data_append]
        rw [string_data_append]
        exact head?_append_some _ (head?_append_some _ (head?_append_some _
          (head?_append_some _ (by decide))))
      · rw [string_data_append, string_data_append]
        exact head?_append_some _ (head?_append_some _ (by decide))
  | permissionError => rfl
  | fileNotFound =>
      exfalso
      have hlog := congrArg (fun t => t.2.2) h
      simp only [readFileCore] at hlog
      have hx := List.append_cancel_left hlog
      have hy : ("NOTFOUND read_file(" ++ path ++ ") -> FileNotFoundError" : String)
          = "BLOCKED  read_file(" ++ path ++ ") -> PermissionError (sandbox deny)" :=
        List.cons.inj hx |>.1
      refine str_ne_of_head_ne (x := 'N') (y := 'B') ?_ ?_ (by decide) hy
      · rw [string_data_append, string_data_append]
        exact head?_append_some _ (head?_append_some _ (by decide))
      · rw [string_data_append, string_data_append]
        exact head?_append_some _ (head?_append_some _ (by decide))
  | isADirectory =>
      exfalso
      have hlog := congrArg (fun t => t.2.2) h
      simp only [readFileCore] at hlog
      have hlen := congrArg List.length hlog
      simp [List.length_append] at hlen
  | osError cause =>
      exfalso
      have hlog := congrArg (fun t => t.2.2) h
      simp only [readFileCore] at hlog
      have hlen := congrArg List.length hlog
      simp [List.length_append] at hlen

theorem strHead_append (a b : String) (x : Char) (ha : a.data.head? = some x) :
    (a ++ b).data.head? = some x := by
  rw [string_data_append]
  exact head?_append_some _ ha

theorem persistCount_emit_cons (m : ChatMessage) (l : List Step) :
    persistCount (Step.emit m :: l) = persistCount l := rfl

/-! ## The claims -/

/-- C1: in an execution of `serve` without `--no-sandbox`, the sandbox
apply happens exactly once and strictly before the server starts handling
traffic; a second apply against an already-applied sandbox fails with
`AlreadyApplied`; and no runtime operation reachable after apply (tool
reads issued by the agent loop, turn persists, buffer clears) changes the
sandbox state — in particular no capability entry is ever added and
filesystem access is never widened. -/
theorem c1_sandbox_apply_once
    (env : SandboxEnv) (caps caps2 : CapabilitySet)
    (resolve : String → String) (rawFs : String → FsResult)
    (ops : List RuntimeOp) (st : ProcState) :
    serve false env
      = [ProcAction.sandboxApply (apply_sandbox_caps env), ProcAction.startServer]
  ∧ nono_apply caps2 (SandboxState.applied caps) = Except.error NonoError.alreadyApplied
  ∧ (runOps resolve rawFs ops st).sandbox = st.sandbox :=
  ⟨rfl, rfl, runOps_sandbox resolve rawFs ops st⟩

/-- C2: `read_file` totally dispatches on the outcome of the OS read (it
never raises to its caller) and each failure class yields its own
distinct result string: a permission denial returns the sandbox-blocked
message naming the path and appends a role-"tool" event whose content
contains "permission denied"; a missing file returns the not-found
message; a directory returns its descriptive message; any other OS error
returns a generic message including the underlying cause; success returns
the (possibly truncated) content.  The four failure strings are pairwise
distinct for every path. -/
theorem c2_read_file_outcomes
    (resolve : String → String) (fs : String → FsResult)
    (nowTs path cause raw : String)
    (events : List ChatMessage) (logs : List String) :
    read_file resolve fs nowTs path events logs
      = readFileCore (fs (resolve path)) nowTs path events logs
  ∧ readFileCore FsResult.permissionError nowTs path events logs
      = ("BLOCKED by nono sandbox: permission denied reading " ++ path,
         events ++ [⟨"tool", nowTs,
           "read_file(" ++ path ++ ") -- BLOCKED by nono sandbox (permission denied)"⟩],
         logs ++ ["BLOCKED  read_file(" ++ path ++ ") -> PermissionError (sandbox deny)"])
  ∧ strContains ("BLOCKED by nono sandbox: permission denied reading " ++ path) path
  ∧ strContains
      ("read_file(" ++ path ++ ") -- BLOCKED by nono sandbox (permission denied)")
      "permission denied"
  ∧ (readFileCore FsResult.fileNotFound nowTs path events logs).1
      = "File not found: " ++ path
  ∧ (readFileCore FsResult.isADirectory nowTs path events logs).1
      = "Path is a directory, not a file: " ++ path
  ∧ (readFileCore (FsResult.osError cause) nowTs path events logs).1
      = "OS error reading " ++ path ++ ": " ++ cause
  ∧ strContains ("OS error reading " ++ path ++ ": " ++ cause) cause
  ∧ (readFileCore (FsResult.ok raw) nowTs path events logs).1 = pySlice raw 4096
  ∧ ("BLOCKED by nono sandbox: permission denied reading " ++ path
      ≠ "File not found: " ++ path)
  ∧ ("BLOCKED by nono sandbox: permission denied reading " ++ path
      ≠ "Path is a directory, not a file: " ++ path)
  ∧ ("BLOCKED by nono sandbox: permission denied reading " ++ path
      ≠ "OS error reading " ++ path ++ ": " ++ cause)
  ∧ ("File not found: " ++ path ≠ "Path is a directory, not a file: " ++ path)
  ∧ ("File not found: " ++ path ≠ "OS error reading " ++ path ++ ": " ++ cause)
  ∧ ("Path is a directory, not a file: " ++ path
      ≠ "OS error reading " ++ path ++ ": " ++ cause) := by
  have hosHead : ("OS error reading " ++ path ++ ": " ++ cause).data.head? = some 'O' :=
    strHead_append _ _ 'O' (strHead_append _ _ 'O' (strHead_append _ _ 'O' (by decide)))
  refine ⟨rfl, rfl, ?_, ?_, rfl, rfl, rfl, ?_, rfl, ?_, ?_, ?_, ?_, ?_, ?_⟩
  · refine ⟨("BLOCKED by nono sandbox: permission denied reading " : String).data, [], ?_⟩
    rw [string_data_append]
    simp
  · refine ⟨("read_file(" : String).data ++ path.data
        ++ (") -- BLOCKED by nono sandbox (" : String).data, (")" : String).data, ?_⟩
    rw [string_data_append, string_data_append]
    have hsplit : (") -- BLOCKED by nono sandbox (permission denied)" : String).data
        = (") -- BLOCKED by nono sandbox (" : String).data
          ++ (("permission denied" : String).data ++ (")" : String).data) := by decide
    rw [hsplit]
    simp [List.append_assoc]
  · refine ⟨("OS error reading " : String).data ++ path.data
        ++ (": " : String).data, [], ?_⟩
    rw [string_data_append, string_data_append, string_data_append]
    simp [List.append_assoc]
  · exact str_ne_of_head_ne (strHead_append _ _ 'B' (by decide))
      (strHead_append _ _ 'F' (by decide)) (by decide)
  · exact str_ne_of_head_ne (strHead_append _ _ 'B' (by decide))
      (strHead_append _ _ 'P' (by decide)) (by decide)
  · exact str_ne_of_head_ne (strHead_append _ _ 'B' (by decide)) hosHead (by decide)
  · exact str_ne_of_head_ne (strHead_append _ _ 'F' (by decide))
      (strHead_append _ _ 'P' (by decide)) (by decide)
  · exact str_ne_of_head_ne (strHead_append _ _ 'F' (by decide)) hosHead (by decide)
  · exact str_ne_of_head_ne (strHead_append _ _ 'P' (by decide)) hosHead (by decide)

/-- C3: in a turn whose agent loop completes, the store append is
performed exactly once and is the very last step — after the final
fragment and the trailing event flush; a turn whose agent loop raises
performs no append; and any strict prefix of the step sequence (all a
disconnecting consumer ever observes) contains no append, so no partially
built turn is ever persisted. -/
theorem c3_persist_exactly_once
    (prompt nowTs resultTs : String) (frs : List Fragment)
    (trail : List ChatMessage) (blob : String) :
    persistCount (stream_messages prompt nowTs resultTs ⟨frs, some (trail, blob)⟩) = 1
  ∧ (stream_messages prompt nowTs resultTs ⟨frs, some (trail, blob)⟩).getLast?
      = some (Step.persist blob)
  ∧ persistCount (stream_messages prompt nowTs resultTs ⟨frs, none⟩) = 0
  ∧ (∀ (run : AgentRun) (k : Nat),
      k < (stream_messages prompt nowTs resultTs run).length →
      persistCount ((stream_messages prompt nowTs resultTs run).take k) = 0) := by
  have hcomp : persistCount (Step.emit ⟨"user", nowTs, prompt⟩ ::
      (listFlat (fragSteps resultTs) frs ++ trail.map Step.emit)) = 0 := by
    rw [persistCount_emit_cons, persistCount_append, persistCount_fragSteps,
      persistCount_map_emit]
  refine ⟨?_, ?_, ?_, ?_⟩
  · rw [stream_completed_eq, persistCount_append, hcomp]
    rfl
  · rw [stream_completed_eq]
    exact List.getLast?_concat _
  · rw [stream_failed_eq, persistCount_append, persistCount_emit_cons,
      persistCount_fragSteps]
    rfl
  · intro run k hk
    obtain ⟨frs2, after2⟩ := run
    have hsplit : ∃ ys z, stream_messages prompt nowTs resultTs ⟨frs2, after2⟩
        = ys ++ [z] ∧ persistCount ys = 0 := by
      cases after2 with
      | none =>
          refine ⟨Step.emit ⟨"user", nowTs, prompt⟩ :: listFlat (fragSteps resultTs) frs2,
            Step.raiseErr, stream_failed_eq prompt nowTs resultTs frs2, ?_⟩
          rw [persistCount_emit_cons, persistCount_fragSteps]
      | some tb =>
          obtain ⟨trail2, blob2⟩ := tb
          refine ⟨Step.emit ⟨"user", nowTs, prompt⟩ ::
              (listFlat (fragSteps resultTs) frs2 ++ trail2.map Step.emit),
            Step.persist blob2,
            stream_completed_eq prompt nowTs resultTs frs2 trail2 blob2, ?_⟩
          rw [persistCount_emit_cons, persistCount_append, persistCount_fragSteps,
            persistCount_map_emit]
    obtain ⟨ys, z, htr, hys⟩ := hsplit
    rw [htr] at hk ⊢
    have hk2 : k ≤ ys.length := by
      rw [List.length_append] at hk
      simp at hk
      omega
    rw [take_append_singleton ys z k hk2]
    have hle := persistCount_take_le ys k
    omega

/-- C3 witness: a one-fragment completed turn; its step sequence has
length 3 and its strict prefix of length 2 contains no persist step. -/
theorem c3_witness :
    2 < (stream_messages "p" "T1" "T2" ⟨[⟨[], "hi"⟩], some ([], "b")⟩).length
  ∧ persistCount ((stream_messages "p" "T1" "T2" ⟨[⟨[], "hi"⟩], some ([], "b")⟩).take 2)
      = 0 :=
  ⟨by decide,
   (c3_persist_exactly_once "p" "T1" "T2" [⟨[], "hi"⟩] [] "b").2.2.2
     ⟨[⟨[], "hi"⟩], some ([], "b")⟩ 2 (by decide)⟩

/-- C4: the first step of every turn's step sequence is the user record
carrying the prompt and the turn's timestamp; for each fragment of the
run, the tool events accumulated before it are emitted contiguously, in
their accumulation order, immediately before that fragment's model
record; and in a completed turn the trailing tool events are emitted
after all fragments (just before the persist). -/
theorem c4_event_ordering
    (prompt nowTs resultTs : String) (frs : List Fragment)
    (trail : List ChatMessage) (blob : String) :
    (∀ run : AgentRun, (stream_messages prompt nowTs resultTs run).head?
        = some (Step.emit ⟨"user", nowTs, prompt⟩))
  ∧ (∀ (fpre fpost : List Fragment) (f : Fragment), frs = fpre ++ f :: fpost →
      ∃ pre post,
        stream_messages prompt nowTs resultTs ⟨frs, some (trail, blob)⟩
          = pre ++ ((f.newEvents.map Step.emit
              ++ [Step.emit ⟨"model", resultTs, f.text⟩]) ++ post))
  ∧ stream_messages prompt nowTs resultTs ⟨frs, some (trail, blob)⟩
      = (Step.emit ⟨"user", nowTs, prompt⟩ ::
          (listFlat (fragSteps resultTs) frs ++ trail.map Step.emit))
        ++ [Step.persist blob] := by
  refine ⟨fun run => rfl, ?_, stream_completed_eq prompt nowTs resultTs frs trail blob⟩
  intro fpre fpost f hfr
  subst hfr
  refine ⟨Step.emit ⟨"user", nowTs, prompt⟩ :: listFlat (fragSteps resultTs) fpre,
    listFlat (fragSteps resultTs) fpost ++ trail.map Step.emit ++ [Step.persist blob], ?_⟩
  rw [stream_completed_eq, listFlat_append]
  have hcons : listFlat (fragSteps resultTs) (f :: fpost)
      = (f.newEvents.map Step.emit ++ [Step.emit ⟨"model", resultTs, f.text⟩])
        ++ listFlat (fragSteps resultTs) fpost := rfl
  rw [hcons]
  simp [List.append_assoc]

/-- C4 witness: a turn with one fragment preceded by one tool event — the
step sequence decomposes with that tool event immediately before the
fragment's model record. -/
theorem c4_witness :
    ∃ pre post,
      stream_messages "p" "T1" "T2" ⟨[⟨[⟨"tool", "T0", "ev"⟩], "hi"⟩], some ([], "b")⟩
        = pre ++ (((⟨[⟨"tool", "T0", "ev"⟩], "hi"⟩ : Fragment).newEvents.map Step.emit
            ++ [Step.emit ⟨"model", "T2", (⟨[⟨"tool", "T0", "ev"⟩], "hi"⟩ : Fragment).text⟩])
            ++ post) :=
  (c4_event_ordering "p" "T1" "T2" [⟨[⟨"tool", "T0", "ev"⟩], "hi"⟩] [] "b").2.1
    [] [] ⟨[⟨"tool", "T0", "ev"⟩], "hi"⟩ rfl

/-- C5: round trip through the Conversation Store — an empty store
replays the empty sequence; after any sequence of `add_messages` calls
the stored rows are exactly the appended blobs, byte-for-byte, in
insertion (id-ascending) order; and `get_messages` returns the
concatenation, in that order, of the message sequences the deserializer
yields on each stored blob. -/
theorem c5_store_round_trip (deserialize : String → List ModelMessage)
    (blobs : List String) :
    get_messages deserialize emptyDb = []
  ∧ blobs.foldl add_messages emptyDb = blobs
  ∧ get_messages deserialize (blobs.foldl add_messages emptyDb)
      = listFlat deserialize blobs := by
  have hfold : blobs.foldl add_messages emptyDb = blobs := by
    have h := foldl_add_messages blobs emptyDb
    simpa [emptyDb] using h
  exact ⟨rfl, hfold, by rw [hfold]; rfl⟩

/-- C6 (amended): every successful `read_file` returns at most 4096
characters (Unicode code points) — which equals 4096 bytes only when the
content is ASCII — truncation is a total operation that cannot raise, and
the appended ALLOWED tool-event records the post-truncation
`len(content)` as its "bytes read" figure. -/
theorem c6_truncation
    (resolve : String → String) (fs : String → FsResult)
    (nowTs path raw : String) (events : List ChatMessage) (logs : List String)
    (hok : fs (resolve path) = FsResult.ok raw) :
    pyLen (read_file resolve fs nowTs path events logs).1 ≤ 4096
  ∧ (read_file resolve fs nowTs path events logs).2.1
      = events ++ [⟨"tool", nowTs,
          "read_file(" ++ path ++ ") -- ALLOWED ("
            ++ toString (pyLen (read_file resolve fs nowTs path events logs).1)
            ++ " bytes read)"⟩] := by
  have hr : read_file resolve fs nowTs path events logs
      = readFileCore (FsResult.ok raw) nowTs path events logs := by
    show readFileCore (fs (resolve path)) nowTs path events logs = _
    rw [hok]
  rw [hr]
  constructor
  · show pyLen (pySlice raw 4096) ≤ 4096
    show (raw.data.take 4096).length ≤ 4096
    rw [List.length_take]
    exact Nat.min_le_left _ _
  · rfl

/-- C6 witness: the spec's scenario 2 — reading a 5-byte ASCII file:
within the bound, content returned whole, and the ALLOWED event records
"5 bytes read". -/
theorem c6_truncation_witness :
    (pyLen (read_file id (fun _ => FsResult.ok "hello") "T" "/sandbox/notes.txt" [] []).1
        ≤ 4096
      ∧ (read_file id (fun _ => FsResult.ok "hello") "T" "/sandbox/notes.txt" [] []).2.1
          = [] ++ [⟨"tool", "T",
              "read_file(" ++ "/sandbox/notes.txt" ++ ") -- ALLOWED ("
                ++ toString (pyLen (read_file id (fun _ => FsResult.ok "hello") "T"
                    "/sandbox/notes.txt" [] []).1)
                ++ " bytes read)"⟩])
  ∧ (read_file id (fun _ => FsResult.ok "hello") "T" "/sandbox/notes.txt" [] []).1
      = "hello"
  ∧ toString (pyLen (read_file id (fun _ => FsResult.ok "hello") "T"
      "/sandbox/notes.txt" [] []).1) = "5" :=
  ⟨c6_truncation id (fun _ => FsResult.ok "hello") "T" "/sandbox/notes.txt" "hello" [] []
      rfl,
   by decide, by decide⟩

/-- C6 counterexample: a successful read of a 4096-character file of
two-byte characters returns the whole content — 4096 code points whose
UTF-8 encoding is 8192 bytes, exceeding the claimed 4096-byte bound. -/
theorem c6_counterexample :
    (read_file id (fun _ => FsResult.ok wideStr) "T" "/big.txt" [] []).1 = wideStr
  ∧ utf8Len (read_file id (fun _ => FsResult.ok wideStr) "T" "/big.txt" [] []).1
      = 8192 := by
  have htake : (List.replicate 4096 'Ā').take 4096 = List.replicate 4096 'Ā' :=
    take_replicate_self 4096 'Ā'
  have h2 : pySlice wideStr 4096 = wideStr := congrArg String.mk htake
  have h1 : (read_file id (fun _ => FsResult.ok wideStr) "T" "/big.txt" [] []).1
      = pySlice wideStr 4096 := rfl
  have hchar : charUtf8Size 'Ā' = 2 := by decide
  constructor
  · rw [h1, h2]
  · rw [h1, h2]
    show charsUtf8 (List.replicate 4096 'Ā') = 8192
    rw [charsUtf8_replicate, hchar]

/-- C7 (amended): the success, permission-denied and not-found branches
of `read_file` each write exactly one log record and append exactly one
tool-event; the directory and generic-OS-error branches write no log
record and append no tool-event, returning only their message. -/
theorem c7_logging_and_events
    (resolve : String → String) (fs : String → FsResult)
    (nowTs path cause raw : String)
    (events : List ChatMessage) (logs : List String) :
    read_file resolve fs nowTs path events logs
      = readFileCore (fs (resolve path)) nowTs path events logs
  ∧ (readFileCore (FsResult.ok raw) nowTs path events logs).2.1.length
      = events.length + 1
  ∧ (readFileCore (FsResult.ok raw) nowTs path events logs).2.2.length
      = logs.length + 1
  ∧ (readFileCore FsResult.permissionError nowTs path events logs).2.1.length
      = events.length + 1
  ∧ (readFileCore FsResult.permissionError nowTs path events logs).2.2.length
      = logs.length + 1
  ∧ (readFileCore FsResult.fileNotFound nowTs path events logs).2.1.length
      = events.length + 1
  ∧ (readFileCore FsResult.fileNotFound nowTs path events logs).2.2.length
      = logs.length + 1
  ∧ (readFileCore FsResult.isADirectory nowTs path events logs).2.1 = events
  ∧ (readFileCore FsResult.isADirectory nowTs path events logs).2.2 = logs
  ∧ (readFileCore (FsResult.osError cause) nowTs path events logs).2.1 = events
  ∧ (readFileCore (FsResult.osError cause) nowTs path events logs).2.2 = logs := by
  refine ⟨rfl, ?_, ?_, ?_, ?_, ?_, ?_, rfl, rfl, rfl, rfl⟩ <;>
    simp [readFileCore]

/-- C7 counterexample: a directory invocation — which the claim says must
still write a log record — writes none; and a generic OS-error invocation
writes neither a log record nor a buffered tool-event. -/
theorem c7_counterexample :
    (read_file id (fun _ => FsResult.isADirectory) "T" "/etc" [] []).2.2
      = ([] : List String)
  ∧ (read_file id (fun _ => FsResult.osError "disk failure") "T" "/dev/x" [] []).2.2
      = ([] : List String)
  ∧ (read_file id (fun _ => FsResult.osError "disk failure") "T" "/dev/x" [] []).2.1
      = ([] : List ChatMessage) :=
  ⟨rfl, rfl, rfl⟩

/-- C8 (amended): every message that has a first part and is neither a
request headed by a string-content user prompt nor a response headed by a
text part makes `to_chat_message` raise `UnexpectedModelBehavior` (a
message with an empty part list instead raises `IndexError` from
`m.parts[0]`); in either case a turn in which the agent loop raises ends
in the exception step with no store append — nothing is persisted and the
error is not silently swallowed. -/
theorem c8_unexpected_shape :
    (∀ m : ModelMessage, hasFirstPart m = true → renderable m = false →
        isUnexpectedErr (to_chat_message m) = true)
  ∧ (∀ (prompt nowTs resultTs : String) (frs : List Fragment),
        persistCount (stream_messages prompt nowTs resultTs ⟨frs, none⟩) = 0
      ∧ (stream_messages prompt nowTs resultTs ⟨frs, none⟩).getLast?
          = some Step.raiseErr) := by
  constructor
  · intro m h1 h2
    cases m with
    | request parts =>
        cases parts with
        | nil => simp [hasFirstPart] at h1
        | cons p rest =>
            cases p with
            | userPrompt c ts =>
                cases c with
                | str s => simp [renderable] at h2
                | nonStr => rfl
            | systemPrompt c => rfl
            | toolReturn c => rfl
            | retryPrompt c => rfl
    | response parts ts =>
        cases parts with
        | nil => simp [hasFirstPart] at h1
        | cons p rest =>
            cases p with
            | text c => simp [renderable] at h2
            | toolCall n => rfl
  · intro prompt nowTs resultTs frs
    constructor
    · rw [stream_failed_eq, persistCount_append, persistCount_emit_cons,
        persistCount_fragSteps]
      rfl
    · rw [stream_failed_eq]
      exact List.getLast?_concat _

/-- C8 witness: a request headed by a system prompt raises the
unexpected-model-behavior error, and a raising turn persists nothing. -/
theorem c8_witness :
    hasFirstPart (ModelMessage.request [RequestPart.systemPrompt "be helpful"]) = true
  ∧ renderable (ModelMessage.request [RequestPart.systemPrompt "be helpful"]) = false
  ∧ isUnexpectedErr (to_chat_message
      (ModelMessage.request [RequestPart.systemPrompt "be helpful"])) = true
  ∧ persistCount (stream_messages "p" "T1" "T2" ⟨[], none⟩) = 0 :=
  ⟨rfl, rfl,
   c8_unexpected_shape.1 (ModelMessage.request [RequestPart.systemPrompt "be helpful"])
     rfl rfl,
   (c8_unexpected_shape.2 "p" "T1" "T2" []).1⟩

/-- C8 counterexample: a request with an empty part list is neither of
the renderable shapes, yet `to_chat_message` raises `IndexError`, not the
unexpected-model-behavior error the claim demands for every such
message. -/
theorem c8_counterexample :
    renderable (ModelMessage.request []) = false
  ∧ to_chat_message (ModelMessage.request []) = Except.error PyErr.indexError
  ∧ isUnexpectedErr (to_chat_message (ModelMessage.request [])) = false :=
  ⟨rfl, rfl, rfl⟩

/-- C9: `to_chat_message` is determined by the first part: a response
headed by a text part renders that part's content whatever follows; a
request headed by a string-content user prompt renders likewise; a
message headed by a tool-call or tool-return part raises even when a
renderable part follows; consequently `get_chat` fails on any history
containing a message whose first part is a tool-call or tool-return
part. -/
theorem c9_first_part_only :
    (∀ (t ts : String) (rest : List ResponsePart),
        to_chat_message (ModelMessage.response (ResponsePart.text t :: rest) ts)
          = Except.ok ⟨"model", ts, t⟩)
  ∧ (∀ (c ts0 : String) (rest : List RequestPart),
        to_chat_message
            (ModelMessage.request (RequestPart.userPrompt (UserContent.str c) ts0 :: rest))
          = Except.ok ⟨"user", ts0, c⟩)
  ∧ (∀ (n ts : String) (rest : List ResponsePart),
        exceptIsOk (to_chat_message
            (ModelMessage.response (ResponsePart.toolCall n :: rest) ts)) = false)
  ∧ (∀ (s : String) (rest : List RequestPart),
        exceptIsOk (to_chat_message
            (ModelMessage.request (RequestPart.toolReturn s :: rest))) = false)
  ∧ (∀ msgs : List ModelMessage,
        (∃ m, m ∈ msgs ∧ headIsToolPart m = true) →
        exceptIsOk (get_chat msgs) = false) := by
  refine ⟨fun t ts rest => rfl, fun c ts0 rest => rfl, fun n ts rest => rfl,
    fun s rest => rfl, ?_⟩
  intro msgs ⟨m, hm, htool⟩
  exact get_chat_error_of_mem msgs m hm (toolPart_not_ok m htool)

/-- C9 witness: a stored history whose second message is a response
headed by a tool-call part — with a renderable text part right after it —
still makes `get_chat` fail. -/
theorem c9_witness :
    exceptIsOk (get_chat
      [ModelMessage.request [RequestPart.userPrompt (UserContent.str "hi") "T0"],
       ModelMessage.response [ResponsePart.toolCall "read_file", ResponsePart.text "x"]
         "T1"]) = false :=
  c9_first_part_only.2.2.2.2 _
    ⟨ModelMessage.response [ResponsePart.toolCall "read_file", ResponsePart.text "x"] "T1",
     by decide, rfl⟩

/-- C10: `read_file` performs no capability check of its own — its only
environment is the OS read outcome.  With no sandbox applied
(`--no-sandbox`), the kernel passes every request through to the raw
filesystem and `read_file` returns the content of any readable path; and
`read_file` produces the blocked result, blocked tool-event and blocked
log record exactly when the underlying read raises a permission error. -/
theorem c10_no_capability_check
    (resolve : String → String) (rawFs fs : String → FsResult)
    (nowTs path raw : String) (events : List ChatMessage) (logs : List String) :
    read_file resolve (osRead none rawFs) nowTs path events logs
      = readFileCore (rawFs (resolve path)) nowTs path events logs
  ∧ (rawFs (resolve path) = FsResult.ok raw →
      (read_file resolve (osRead none rawFs) nowTs path events logs).1
        = pySlice raw 4096)
  ∧ (read_file resolve fs nowTs path events logs
        = readFileCore FsResult.permissionError nowTs path events logs
      ↔ fs (resolve path) = FsResult.permissionError) := by
  refine ⟨rfl, ?_, ?_, ?_⟩
  · intro h
    show (readFileCore (rawFs (resolve path)) nowTs path events logs).1 = _
    rw [h]
    rfl
  · intro h
    exact readFileCore_blocked_inj (fs (resolve path)) nowTs path events logs h
  · intro h
    show readFileCore (fs (resolve path)) nowTs path events logs = _
    rw [h]

/-- C10 witness: with the sandbox never applied, `read_file` happily
returns the content of `/etc/passwd` — no restriction is enforced
anywhere in this code. -/
theorem c10_witness :
    (read_file id (osRead none (fun _ => FsResult.ok "secret")) "T" "/etc/passwd" [] []).1
      = pySlice "secret" 4096
  ∧ pySlice "secret" 4096 = "secret" :=
  ⟨(c10_no_capability_check id (fun _ => FsResult.ok "secret")
      (fun _ => FsResult.ok "secret") "T" "/etc/passwd" "secret" [] []).2.1 rfl,
   by decide⟩
